import Mathlib

/-!
Shallow embedding of the secure-transactions-api core: the Paystack gateway
client (src/utils/paystack.js, the variant with secret-key validation), the
payment controller (initiatePayment, verifyPayment, getMyTransactions,
getAllTransactions), the auth and role middleware, and the login handler.
External effects (the network, jwt, bcrypt) are passed in as explicit
outcome values or oracle functions; database reads and writes are explicit
state passing over a list of records, and each controller also returns the
ordered list of persistence and gateway events it performed.
-/

namespace SecureTx

/-- Role enumeration of the User model (role: user | admin). -/
inductive Role
  | user
  | admin
  deriving DecidableEq

/-- Status enumeration of the Transaction model (pending | success | failed). -/
inductive TxStatus
  | pending
  | success
  | failed
  deriving DecidableEq

/-- The Mixed-typed paystackData field of a Transaction: either the data
object stored by initiatePayment, the data object stored by verifyPayment,
or the error object written on a gateway failure. The string fields
other than status are opaque remainders of the gateway payload. -/
inductive PaystackData
  | initData (authorization_url : String) (access_code : String) (rest : String)
  | verifyData (status : String) (rest : String)
  | errorData (msg : String)
  deriving DecidableEq

/-- A Transaction record (src Transaction model): owner id, amount in kobo,
unique reference, status, opaque gateway payload, creation time. -/
structure Transaction where
  user : Nat
  amount : Int
  reference : String
  status : TxStatus
  paystackData : Option PaystackData
  createdAt : Nat
  deriving DecidableEq

/-- A User record as attached to the request by the auth middleware. -/
structure User where
  id : Nat
  name : String
  email : String
  role : Role
  deriving DecidableEq

/-- The raw body of an upstream gateway error response: its message field
and an opaque remainder standing for every other field of the body. -/
structure UpstreamErrorBody where
  message : String
  rest : String
  deriving DecidableEq

/-- Outcome of one axios round trip, as the Paystack client distinguishes
them: a 2xx response carrying data, an error response with a status code
and body, or a request that got no response at all. -/
inductive AxiosOutcome (A : Type)
  | ok (data : A)
  | httpError (statusCode : Nat) (body : UpstreamErrorBody)
  | requestError
  deriving DecidableEq

/-- A gateway success-path response body: status flag, optional data object,
and a message field where the empty string models an absent message. -/
structure GatewayBody (A : Type) where
  status : Bool
  data : Option A
  message : String
  deriving DecidableEq

/-- The data object of a successful initialize response. -/
structure InitRespData where
  authorization_url : String
  access_code : String
  rest : String
  deriving DecidableEq

/-- The data object of a successful verify response: its status string plus
an opaque remainder. -/
structure VerifyRespData where
  status : String
  rest : String
  deriving DecidableEq

/-- The JavaScript String.prototype.startsWith method, over the character
list of the string. -/
def jsStartsWith (s : String) (p : String) : Bool :=
  p.data.isPrefixOf s.data

/-- The JavaScript String.prototype.substring suffix (drop the first n
characters), over the character list of the string. -/
def jsDrop (s : String) (n : Nat) : String :=
  String.mk (s.data.drop n)

/-- The JavaScript String.prototype.toLowerCase method, over the character
list of the string. -/
def jsToLower (s : String) : String :=
  String.mk (s.data.map Char.toLower)

/-- The JavaScript String.prototype.trim method, over the character list of
the string. -/
def jsTrim (s : String) : String :=
  String.mk (((s.data.dropWhile Char.isWhitespace).reverse.dropWhile
    Char.isWhitespace).reverse)

/-- getAuthHeader of the Paystack client: the configured secret key
(none models an unset environment variable) is trimmed, rejected when
missing or empty, and rejected when it starts with neither sk_test_ nor
sk_live_. An error value models the thrown Error message. -/
def getAuthHeader (cfg : Option String) : Except String Unit :=
  match cfg with
  | none => .error "PAYSTACK_SECRET_KEY is not set in environment variables"
  | some s =>
    let secretKey := jsTrim s
    if secretKey = "" then
      .error "PAYSTACK_SECRET_KEY is not set in environment variables"
    else if jsStartsWith secretKey "sk_test_" || jsStartsWith secretKey "sk_live_" then
      .ok ()
    else
      .error "PAYSTACK_SECRET_KEY format is invalid. It should start with sk_test_ or sk_live_"

/-- initializeTransaction of the Paystack client: required-field check, then
the auth-header check, then the axios call; an error response maps to a
thrown Error carrying the upstream message field (with a fixed fallback),
and a missing response maps to a network error. -/
def initializeTransaction (cfg : Option String) (amount : Int) (email : String)
    (reference : String) (net : AxiosOutcome (GatewayBody InitRespData)) :
    Except String (GatewayBody InitRespData) :=
  if amount = 0 || email = "" || reference = "" then
    .error "Missing required payment data: amount, email, or reference"
  else
    match getAuthHeader cfg with
    | .error e => .error e
    | .ok _ =>
      match net with
      | .ok body => .ok body
      | .httpError _ b =>
        .error (if b.message = "" then "Failed to initialize payment with Paystack" else b.message)
      | .requestError =>
        .error "Network error: Could not reach Paystack API. Please check your internet connection."

/-- verifyTransaction of the Paystack client: reference check, auth-header
check, then the axios call; an upstream 404 maps to a distinguished
message, any other error response to the upstream message field. -/
def verifyTransaction (cfg : Option String) (reference : String)
    (net : AxiosOutcome (GatewayBody VerifyRespData)) :
    Except String (GatewayBody VerifyRespData) :=
  if reference = "" then
    .error "Transaction reference is required"
  else
    match getAuthHeader cfg with
    | .error e => .error e
    | .ok _ =>
      match net with
      | .ok body => .ok body
      | .httpError code b =>
        if code = 404 then
          .error "Transaction not found. Invalid reference."
        else
          .error (if b.message = "" then "Failed to verify transaction with Paystack" else b.message)
      | .requestError =>
        .error "Network error: Could not reach Paystack API. Please check your internet connection."

/-- Transaction.findOne on the reference field. -/
def findOne (store : List Transaction) (ref : String) : Option Transaction :=
  store.find? (fun t => t.reference == ref)

/-- transaction.save: replace the record with the same reference in place. -/
def saveTx (store : List Transaction) (t : Transaction) : List Transaction :=
  store.map (fun u => if u.reference = t.reference then t else u)

/-- One persistence or gateway event performed by a controller, in order. -/
inductive Event
  | dbCreate (t : Transaction)
  | dbSave (t : Transaction)
  | gatewayInit (amount : Int) (email : String) (reference : String)
  | gatewayVerify (reference : String)
  deriving DecidableEq

/-- Shape of every HTTP response body sent by the controllers: status code,
success flag, message. -/
structure HttpResponse where
  status : Nat
  success : Bool
  message : String
  deriving DecidableEq

/-- A JavaScript number as it reaches the amount validation: NaN or a
(finite) numeric value, modelled as a rational. -/
inductive JsNum
  | nan
  | val (q : ℚ)
  deriving DecidableEq

/-- The amount validation of initiatePayment, as a predicate:
the request amount is rejected when absent, falsy (zero), NaN, or below 1. -/
def validAmount : Option JsNum → Bool
  | some (.val q) => if q = 0 then false else if q < 1 then false else true
  | _ => false

/-- customerEmail of initiatePayment: the body email when present and
truthy, the authenticated user email otherwise. -/
def customerEmail (u : User) (email : Option String) : String :=
  match email with
  | some e => if e = "" then u.email else e
  | none => u.email

/-- Result of initiatePayment: the HTTP response, the response data fields,
the final store, and the ordered event trace. -/
structure InitiateResult where
  resp : HttpResponse
  authorization_url : Option String
  reference : Option String
  amountOut : Option Int
  accessCode : Option String
  store : List Transaction
  events : List Event
  deriving DecidableEq

/-- The part of initiatePayment after the pending record was created and the
gateway client invoked, as a function of the client call result: a resolved
body with status true and a data object stores the payload and answers 200;
any other resolved body marks the record failed and answers 400 with the
gateway message; a thrown error marks it failed, stores the error payload,
and answers 500. -/
def initiateAfterCreate (store1 : List Transaction) (tx : Transaction)
    (amountInKobo : Int) (ce : String) (newRef : String)
    (res : Except String (GatewayBody InitRespData)) : InitiateResult :=
  match res with
  | .ok body =>
    match body.status, body.data with
    | true, some d =>
      let payload : PaystackData := .initData d.authorization_url d.access_code d.rest
      let tx' := { tx with paystackData := some payload }
      ⟨⟨200, true, "Payment initialized successfully"⟩, some d.authorization_url,
        some newRef, some amountInKobo, some d.access_code, saveTx store1 tx',
        [.dbCreate tx, .gatewayInit amountInKobo ce newRef, .dbSave tx']⟩
    | _, _ =>
      let tx' := { tx with status := TxStatus.failed }
      ⟨⟨400, false, if body.message = "" then "Failed to initialize payment" else body.message⟩,
        none, none, none, none, saveTx store1 tx',
        [.dbCreate tx, .gatewayInit amountInKobo ce newRef, .dbSave tx']⟩
  | .error msg =>
    let tx' := { tx with status := TxStatus.failed, paystackData := some (.errorData msg) }
    ⟨⟨500, false, if msg = "" then "Failed to initialize payment with Paystack" else msg⟩,
      none, none, none, none, saveTx store1 tx',
      [.dbCreate tx, .gatewayInit amountInKobo ce newRef, .dbSave tx']⟩

/-- initiatePayment of the payment controller. Inputs beyond the request
body: the current store, the authenticated user, the generated reference,
the current time, the gateway configuration and the network outcome. -/
def initiatePayment (store : List Transaction) (u : User)
    (amount : Option JsNum) (email : Option String) (newRef : String) (now : Nat)
    (cfg : Option String) (net : AxiosOutcome (GatewayBody InitRespData)) :
    InitiateResult :=
  match amount with
  | none =>
    ⟨⟨400, false, "Please provide a valid amount (minimum 1 kobo)."⟩,
      none, none, none, none, store, []⟩
  | some .nan =>
    ⟨⟨400, false, "Please provide a valid amount (minimum 1 kobo)."⟩,
      none, none, none, none, store, []⟩
  | some (.val q) =>
    if q = 0 then
      ⟨⟨400, false, "Please provide a valid amount (minimum 1 kobo)."⟩,
        none, none, none, none, store, []⟩
    else if q < 1 then
      ⟨⟨400, false, "Please provide a valid amount (minimum 1 kobo)."⟩,
        none, none, none, none, store, []⟩
    else
      let amountInKobo : Int := q.floor
      let ce := customerEmail u email
      let tx : Transaction := ⟨u.id, amountInKobo, newRef, TxStatus.pending, none, now⟩
      let store1 := store ++ [tx]
      initiateAfterCreate store1 tx amountInKobo ce newRef
        (initializeTransaction cfg amountInKobo ce newRef net)

/-- Result of verifyPayment: the HTTP response, the transaction and status
of the response data, the final store, and the ordered event trace. -/
structure VerifyResult where
  resp : HttpResponse
  txOut : Option Transaction
  statusOut : Option TxStatus
  store : List Transaction
  events : List Event
  deriving DecidableEq

/-- Status mapping of verifyPayment: gateway status string success maps to
success, failed to failed, anything else to pending. -/
def mapGatewayStatus (s : String) : TxStatus :=
  if s = "success" then TxStatus.success
  else if s = "failed" then TxStatus.failed
  else TxStatus.pending

/-- The part of verifyPayment after the ownership and short-circuit gates,
as a function of the gateway client call result: a resolved body with
status true and a data object persists the mapped status with the payload
and answers 200; any other resolved body marks the record failed with an
error payload and answers 400; a thrown error does the same with 500. -/
def verifyAfterGate (store : List Transaction) (tx : Transaction)
    (reference : String) (res : Except String (GatewayBody VerifyRespData)) :
    VerifyResult :=
  match res with
  | .ok body =>
    match body.status, body.data with
    | true, some d =>
      let payload : PaystackData := .verifyData d.status d.rest
      let tx' := { tx with status := mapGatewayStatus d.status, paystackData := some payload }
      ⟨⟨200, true, "Transaction verified successfully"⟩, some tx', some tx'.status,
        saveTx store tx', [.gatewayVerify reference, .dbSave tx']⟩
    | _, _ =>
      let tx' := { tx with status := TxStatus.failed, paystackData := some (.errorData body.message) }
      ⟨⟨400, false, if body.message = "" then "Failed to verify transaction" else body.message⟩,
        none, none, saveTx store tx', [.gatewayVerify reference, .dbSave tx']⟩
  | .error msg =>
    let tx' := { tx with status := TxStatus.failed, paystackData := some (.errorData msg) }
    ⟨⟨500, false, if msg = "" then "Failed to verify transaction with Paystack" else msg⟩,
      none, none, saveTx store tx', [.gatewayVerify reference, .dbSave tx']⟩

/-- verifyPayment of the payment controller: missing-reference check, local
lookup, ownership gate (owner or admin), idempotent short-circuit when the
stored status is already success, then the gateway round trip. -/
def verifyPayment (store : List Transaction) (u : User) (reference : String)
    (cfg : Option String) (net : AxiosOutcome (GatewayBody VerifyRespData)) :
    VerifyResult :=
  if reference = "" then
    ⟨⟨400, false, "Transaction reference is required."⟩, none, none, store, []⟩
  else
    match findOne store reference with
    | none => ⟨⟨404, false, "Transaction not found."⟩, none, none, store, []⟩
    | some tx =>
      if tx.user ≠ u.id ∧ u.role ≠ Role.admin then
        ⟨⟨403, false, "You do not have permission to verify this transaction."⟩,
          none, none, store, []⟩
      else if tx.status = TxStatus.success then
        ⟨⟨200, true, "Transaction already verified"⟩, some tx, some tx.status, store, []⟩
      else
        verifyAfterGate store tx reference (verifyTransaction cfg reference net)

/-- A transaction as returned by the listing endpoints: every stored field
except paystackData, which the select clause excludes. -/
structure TxView where
  user : Nat
  amount : Int
  reference : String
  status : TxStatus
  createdAt : Nat
  deriving DecidableEq

/-- The select clause of the listings: drop the paystackData field. -/
def stripPaystackData (t : Transaction) : TxView :=
  ⟨t.user, t.amount, t.reference, t.status, t.createdAt⟩

/-- Insertion step of the createdAt-descending sort of the listings. -/
def insertDescByCreatedAt (t : Transaction) : List Transaction → List Transaction
  | [] => [t]
  | u :: us =>
    if u.createdAt ≤ t.createdAt then t :: u :: us
    else u :: insertDescByCreatedAt t us

/-- The sort clause of the listings: order by createdAt descending. -/
def sortDescByCreatedAt (l : List Transaction) : List Transaction :=
  l.foldr insertDescByCreatedAt []

/-- getMyTransactions of the payment controller: the requesting user's
transactions, newest first, with paystackData excluded; returns the count
and the records. -/
def getMyTransactions (store : List Transaction) (u : User) : Nat × List TxView :=
  let transactions :=
    (sortDescByCreatedAt (store.filter (fun t => t.user == u.id))).map stripPaystackData
  (transactions.length, transactions)

/-- The owner fields joined into each record by the populate clause of
getAllTransactions (name, email, role). -/
structure PopulatedOwner where
  name : String
  email : String
  role : Role
  deriving DecidableEq

/-- A transaction as returned by getAllTransactions: paystackData excluded,
owner identity joined when it resolves. -/
structure AdminTxView where
  owner : Option PopulatedOwner
  amount : Int
  reference : String
  status : TxStatus
  createdAt : Nat
  deriving DecidableEq

/-- The populate clause of getAllTransactions: resolve the owner id against
the user collection and keep name, email and role. -/
def populateOwner (users : List User) (t : Transaction) : AdminTxView :=
  match users.find? (fun u => u.id == t.user) with
  | some u => ⟨some ⟨u.name, u.email, u.role⟩, t.amount, t.reference, t.status, t.createdAt⟩
  | none => ⟨none, t.amount, t.reference, t.status, t.createdAt⟩

/-- getAllTransactions of the payment controller: every transaction, newest
first, owner joined, paystackData excluded; returns count and records. -/
def getAllTransactions (users : List User) (store : List Transaction) :
    Nat × List AdminTxView :=
  let transactions := (sortDescByCreatedAt store).map (populateOwner users)
  (transactions.length, transactions)

/-- Outcome of jwt.verify on a token string: the decoded payload fields id
and role, or a structural failure, or an expiry failure. -/
inductive TokenVerifyOutcome
  | valid (id : Nat) (role : Role)
  | malformed
  | expired
  deriving DecidableEq

/-- User.findById. -/
def findById (users : List User) (id : Nat) : Option User :=
  users.find? (fun u => u.id == id)

/-- The auth middleware: extract the bearer token from the authorization
header, verify it (jwtVerify is the jwt.verify oracle under the process
secret), then re-load the full user record by the decoded id; any failure
answers 401, success hands the loaded user to the next handler. -/
def authMiddleware (users : List User) (authHeader : Option String)
    (jwtVerify : String → TokenVerifyOutcome) : Except HttpResponse User :=
  match authHeader with
  | none =>
    .error ⟨401, false,
      "No token provided. Please include a Bearer token in the Authorization header."⟩
  | some h =>
    if jsStartsWith h "Bearer " then
      let token := jsDrop h 7
      if token = "" then .error ⟨401, false, "Token is missing."⟩
      else
        match jwtVerify token with
        | .malformed => .error ⟨401, false, "Invalid token."⟩
        | .expired => .error ⟨401, false, "Token has expired. Please login again."⟩
        | .valid id _r =>
          match findById users id with
          | none => .error ⟨401, false, "User not found. Token may be invalid."⟩
          | some u => .ok u
    else
      .error ⟨401, false,
        "No token provided. Please include a Bearer token in the Authorization header."⟩

/-- Display name of a role, as interpolated into the 403 message. -/
def roleName : Role → String
  | .user => "user"
  | .admin => "admin"

/-- The role middleware: 401 when no user was attached, 403 when the
attached user's current role is not in the allowed set. -/
def roleMiddleware (allowedRoles : List Role) (reqUser : Option User) :
    Except HttpResponse User :=
  match reqUser with
  | none => .error ⟨401, false, "Authentication required."⟩
  | some u =>
    if allowedRoles.contains u.role then .ok u
    else
      .error ⟨403, false,
        "Access denied. This route requires one of the following roles: "
          ++ String.intercalate ", " (allowedRoles.map roleName) ++ "."⟩

/-- The two-stage authorization gate as wired on every payment route: the
auth middleware followed by the role middleware on the re-loaded user. -/
def authorizationGate (users : List User) (authHeader : Option String)
    (jwtVerify : String → TokenVerifyOutcome) (allowedRoles : List Role) :
    Except HttpResponse User :=
  match authMiddleware users authHeader jwtVerify with
  | .error e => .error e
  | .ok u => roleMiddleware allowedRoles (some u)

/-- A stored user record including the hashed password, as selected by the
login handler. -/
structure StoredUser where
  id : Nat
  name : String
  email : String
  passwordHash : String
  role : Role
  deriving DecidableEq

/-- Result of the login handler: the HTTP response and whether a token was
issued. -/
structure LoginResult where
  resp : HttpResponse
  tokenIssued : Bool
  deriving DecidableEq

/-- The login handler: missing-field check, lookup by lowercased email,
bcrypt comparison (passed as an oracle); both lookup failure and comparison
failure answer the same generic 401. -/
def login (users : List StoredUser) (bcryptCompare : String → String → Bool)
    (email : String) (password : String) : LoginResult :=
  if email = "" ∨ password = "" then
    ⟨⟨400, false, "Please provide email and password."⟩, false⟩
  else
    match users.find? (fun u => u.email == jsToLower email) with
    | none => ⟨⟨401, false, "Invalid email or password."⟩, false⟩
    | some u =>
      if bcryptCompare password u.passwordHash then
        ⟨⟨200, true, "Login successful"⟩, true⟩
      else ⟨⟨401, false, "Invalid email or password."⟩, false⟩

/-! Helper lemmas about the store primitives and the two controllers. -/

lemma findOne_mem {store : List Transaction} {ref : String} {tx : Transaction}
    (h : findOne store ref = some tx) : tx ∈ store ∧ tx.reference = ref := by
  unfold findOne at h
  refine ⟨List.mem_of_find?_eq_some h, ?_⟩
  have hp := List.find?_some h
  simpa using hp

lemma mem_saveTx_of_ne {store : List Transaction} {t tx' : Transaction}
    (ht : t ∈ store) (h : t.reference ≠ tx'.reference) : t ∈ saveTx store tx' := by
  unfold saveTx
  have hm := List.mem_map_of_mem (fun u => if u.reference = tx'.reference then tx' else u) ht
  simpa only [if_neg h] using hm

lemma saveTx_append_fresh (store : List Transaction) (tx tx' : Transaction)
    (h : tx.reference = tx'.reference)
    (hfresh : tx'.reference ∉ store.map Transaction.reference) :
    saveTx (store ++ [tx]) tx' = store ++ [tx'] := by
  unfold saveTx
  rw [List.map_append]
  have hfix : ∀ u ∈ store, (if u.reference = tx'.reference then tx' else u) = u := by
    intro u hu
    rw [if_neg]
    intro hcontra
    exact hfresh (hcontra ▸ List.mem_map_of_mem Transaction.reference hu)
  have h1 : store.map (fun u => if u.reference = tx'.reference then tx' else u) = store := by
    rw [List.map_congr_left hfix]
    simp
  rw [h1]
  simp [h]

lemma verifyAfterGate_store_shape (store : List Transaction) (tx : Transaction)
    (ref : String) (res : Except String (GatewayBody VerifyRespData)) :
    ∃ tx', (verifyAfterGate store tx ref res).store = saveTx store tx'
      ∧ tx'.reference = tx.reference := by
  cases res with
  | ok body =>
    rcases body with ⟨st, d, m⟩
    cases st <;> cases d <;> exact ⟨_, rfl, rfl⟩
  | error msg => exact ⟨_, rfl, rfl⟩

lemma initiateAfterCreate_store_shape (store1 : List Transaction) (tx : Transaction)
    (a : Int) (ce : String) (newRef : String)
    (res : Except String (GatewayBody InitRespData)) :
    ∃ tx', (initiateAfterCreate store1 tx a ce newRef res).store = saveTx store1 tx'
      ∧ tx'.reference = tx.reference := by
  cases res with
  | ok body =>
    rcases body with ⟨st, d, m⟩
    cases st <;> cases d <;> exact ⟨_, rfl, rfl⟩
  | error msg => exact ⟨_, rfl, rfl⟩

lemma initiatePayment_val (store : List Transaction) (u : User) (q : ℚ)
    (email : Option String) (newRef : String) (now : Nat) (cfg : Option String)
    (net : AxiosOutcome (GatewayBody InitRespData)) (h0 : ¬ q = 0) (h1 : ¬ q < 1) :
    initiatePayment store u (some (.val q)) email newRef now cfg net =
      initiateAfterCreate (store ++ [⟨u.id, q.floor, newRef, TxStatus.pending, none, now⟩])
        ⟨u.id, q.floor, newRef, TxStatus.pending, none, now⟩ q.floor
        (customerEmail u email) newRef
        (initializeTransaction cfg q.floor (customerEmail u email) newRef net) := by
  simp only [initiatePayment]
  rw [if_neg h0, if_neg h1]

lemma initiateAfterCreate_events_shape (store1 : List Transaction) (tx : Transaction)
    (a : Int) (ce : String) (newRef : String)
    (res : Except String (GatewayBody InitRespData)) :
    ∃ tx', (initiateAfterCreate store1 tx a ce newRef res).events =
      [Event.dbCreate tx, Event.gatewayInit a ce newRef, Event.dbSave tx'] := by
  cases res with
  | ok body =>
    rcases body with ⟨st, d, m⟩
    cases st <;> cases d <;> exact ⟨_, rfl⟩
  | error msg => exact ⟨_, rfl⟩

/-- Claim C2: for every transaction whose stored status is success, a verify
call on its reference by the owner or an admin returns the stored record
unchanged with a 200 response, performs no persistence or gateway event,
is independent of the gateway outcome (the adapter is never invoked), and
repeating the call returns the identical result. -/
theorem c2_verify_success_short_circuit
    (store : List Transaction) (u : User) (ref : String) (cfg : Option String)
    (net : AxiosOutcome (GatewayBody VerifyRespData)) (tx : Transaction)
    (href : ref ≠ "") (hfind : findOne store ref = some tx)
    (hown : tx.user = u.id ∨ u.role = Role.admin)
    (hs : tx.status = TxStatus.success) :
    verifyPayment store u ref cfg net =
      ⟨⟨200, true, "Transaction already verified"⟩, some tx, some tx.status, store, []⟩
    ∧ (∀ net', verifyPayment store u ref cfg net' = verifyPayment store u ref cfg net)
    ∧ verifyPayment (verifyPayment store u ref cfg net).store u ref cfg net
        = verifyPayment store u ref cfg net := by
  have hcond : ¬(tx.user ≠ u.id ∧ u.role ≠ Role.admin) := by
    rcases hown with h | h
    · intro hc; exact hc.1 h
    · intro hc; exact hc.2 h
  have key : ∀ n, verifyPayment store u ref cfg n =
      ⟨⟨200, true, "Transaction already verified"⟩, some tx, some tx.status, store, []⟩ := by
    intro n
    unfold verifyPayment
    rw [if_neg href, hfind]
    simp [hcond, hs]
  have hst : (verifyPayment store u ref cfg net).store = store := by rw [key net]
  refine ⟨key net, fun net' => (key net').trans (key net).symm, ?_⟩
  rw [hst]

/-- Claim C2 witness. -/
theorem c2_witness :
    verifyPayment [⟨1, 5000, "PAY-A", TxStatus.success, none, 3⟩]
        ⟨1, "A", "a@x.com", Role.user⟩ "PAY-A" (some "sk_test_k")
        (.ok ⟨true, some ⟨"failed", ""⟩, ""⟩) =
      ⟨⟨200, true, "Transaction already verified"⟩,
        some ⟨1, 5000, "PAY-A", TxStatus.success, none, 3⟩, some TxStatus.success,
        [⟨1, 5000, "PAY-A", TxStatus.success, none, 3⟩], []⟩ :=
  (c2_verify_success_short_circuit [⟨1, 5000, "PAY-A", TxStatus.success, none, 3⟩]
    ⟨1, "A", "a@x.com", Role.user⟩ "PAY-A" (some "sk_test_k")
    (.ok ⟨true, some ⟨"failed", ""⟩, ""⟩) ⟨1, 5000, "PAY-A", TxStatus.success, none, 3⟩
    (by decide) (by decide) (Or.inl rfl) rfl).1

/-- Claim C3: a verify call on an existing transaction by a requester who is
neither the owner nor an admin answers 403 Forbidden, performs no
persistence or gateway event, leaves the store unchanged, and is
independent of the gateway outcome (the adapter is never invoked). -/
theorem c3_verify_forbidden
    (store : List Transaction) (u : User) (ref : String) (cfg : Option String)
    (net : AxiosOutcome (GatewayBody VerifyRespData)) (tx : Transaction)
    (href : ref ≠ "") (hfind : findOne store ref = some tx)
    (hid : tx.user ≠ u.id) (hrole : u.role ≠ Role.admin) :
    verifyPayment store u ref cfg net =
      ⟨⟨403, false, "You do not have permission to verify this transaction."⟩,
        none, none, store, []⟩
    ∧ (∀ net', verifyPayment store u ref cfg net' = verifyPayment store u ref cfg net) := by
  have key : ∀ n, verifyPayment store u ref cfg n =
      ⟨⟨403, false, "You do not have permission to verify this transaction."⟩,
        none, none, store, []⟩ := by
    intro n
    unfold verifyPayment
    rw [if_neg href, hfind]
    simp [hid, hrole]
  exact ⟨key net, fun net' => (key net').trans (key net).symm⟩

/-- Claim C3 witness. -/
theorem c3_witness :
    verifyPayment [⟨1, 5000, "PAY-A", TxStatus.pending, none, 3⟩]
        ⟨2, "B", "b@x.com", Role.user⟩ "PAY-A" (some "sk_test_k")
        (.ok ⟨true, some ⟨"success", ""⟩, ""⟩) =
      ⟨⟨403, false, "You do not have permission to verify this transaction."⟩,
        none, none, [⟨1, 5000, "PAY-A", TxStatus.pending, none, 3⟩], []⟩ :=
  (c3_verify_forbidden [⟨1, 5000, "PAY-A", TxStatus.pending, none, 3⟩]
    ⟨2, "B", "b@x.com", Role.user⟩ "PAY-A" (some "sk_test_k")
    (.ok ⟨true, some ⟨"success", ""⟩, ""⟩) ⟨1, 5000, "PAY-A", TxStatus.pending, none, 3⟩
    (by decide) (by decide) (by decide) (by decide)).1

/-- Claim C7: for a verify call on a non-success transaction by the owner or
an admin, when the gateway client resolves with status true and a data
object, the persisted status is exactly the mapped gateway status (success
to success, failed to failed, anything else to pending) and the gateway
payload is persisted alongside it. -/
theorem c7_verify_status_mapping
    (store : List Transaction) (u : User) (ref : String) (cfg : Option String)
    (net : AxiosOutcome (GatewayBody VerifyRespData)) (tx : Transaction)
    (body : GatewayBody VerifyRespData) (d : VerifyRespData)
    (href : ref ≠ "") (hfind : findOne store ref = some tx)
    (hown : tx.user = u.id ∨ u.role = Role.admin)
    (hns : tx.status ≠ TxStatus.success)
    (hgw : verifyTransaction cfg ref net = .ok body)
    (hst : body.status = true) (hd : body.data = some d) :
    verifyPayment store u ref cfg net =
      ⟨⟨200, true, "Transaction verified successfully"⟩,
        some { tx with status := mapGatewayStatus d.status, paystackData := some (.verifyData d.status d.rest) },
        some (mapGatewayStatus d.status),
        saveTx store { tx with status := mapGatewayStatus d.status, paystackData := some (.verifyData d.status d.rest) },
        [Event.gatewayVerify ref,
          Event.dbSave { tx with status := mapGatewayStatus d.status, paystackData := some (.verifyData d.status d.rest) }]⟩
    ∧ mapGatewayStatus "success" = TxStatus.success
    ∧ mapGatewayStatus "failed" = TxStatus.failed
    ∧ (∀ s, s ≠ "success" → s ≠ "failed" → mapGatewayStatus s = TxStatus.pending) := by
  have hcond : ¬(tx.user ≠ u.id ∧ u.role ≠ Role.admin) := by
    rcases hown with h | h
    · intro hc; exact hc.1 h
    · intro hc; exact hc.2 h
  refine ⟨?_, by decide, by decide, ?_⟩
  · rcases body with ⟨st, dd, m⟩
    have hst' : st = true := hst
    have hd' : dd = some d := hd
    subst hst'
    subst hd'
    unfold verifyPayment
    rw [if_neg href, hfind]
    simp only [hcond, hns, if_false, ite_false, if_neg, not_false_eq_true]
    rw [hgw]
    rfl
  · intro s h1 h2
    unfold mapGatewayStatus
    rw [if_neg h1, if_neg h2]

/-- Claim C7 witness. -/
theorem c7_witness :
    verifyPayment [⟨1, 5000, "PAY-A", TxStatus.pending, none, 3⟩]
        ⟨1, "A", "a@x.com", Role.user⟩ "PAY-A" (some "sk_test_k")
        (.ok ⟨true, some ⟨"success", "raw"⟩, ""⟩) =
      ⟨⟨200, true, "Transaction verified successfully"⟩,
        some ⟨1, 5000, "PAY-A", TxStatus.success, some (.verifyData "success" "raw"), 3⟩,
        some TxStatus.success,
        [⟨1, 5000, "PAY-A", TxStatus.success, some (.verifyData "success" "raw"), 3⟩],
        [Event.gatewayVerify "PAY-A",
          Event.dbSave ⟨1, 5000, "PAY-A", TxStatus.success, some (.verifyData "success" "raw"), 3⟩]⟩ := by
  have h := (c7_verify_status_mapping [⟨1, 5000, "PAY-A", TxStatus.pending, none, 3⟩]
    ⟨1, "A", "a@x.com", Role.user⟩ "PAY-A" (some "sk_test_k")
    (.ok ⟨true, some ⟨"success", "raw"⟩, ""⟩) ⟨1, 5000, "PAY-A", TxStatus.pending, none, 3⟩
    ⟨true, some ⟨"success", "raw"⟩, ""⟩ ⟨"success", "raw"⟩
    (by decide) (by decide) (Or.inl rfl) (by decide) rfl rfl rfl).1
  exact h.trans (by decide)

/-- Claim C1 counterexample: a transaction stored with status failed is
re-verified against the gateway, and when the gateway reports success its
stored status becomes success — so status is not restricted to the
transitions out of pending, and failed is not terminal. -/
theorem c1_counterexample_failed_becomes_success :
    ((verifyPayment [⟨1, 5000, "PAY-1", TxStatus.failed, none, 10⟩]
        ⟨1, "A", "a@x.com", Role.user⟩ "PAY-1" (some "sk_test_k")
        (.ok ⟨true, some ⟨"success", ""⟩, ""⟩)).store.map Transaction.status)
      = [TxStatus.success] := by decide

/-- Claim C1 amended: once a transaction's stored status is success, no
later verify or initiate call changes its record: the record survives any
verify call unchanged (when stored references are unique), and any
initiate call with a fresh reference leaves it in the store unchanged.
A failed transaction, by contrast, is re-verified and may move to any
status. -/
theorem c1_success_is_terminal
    (store : List Transaction) (u : User) (ref : String) (cfg : Option String)
    (net : AxiosOutcome (GatewayBody VerifyRespData)) (t : Transaction)
    (hnodup : (store.map Transaction.reference).Nodup)
    (ht : t ∈ store) (hs : t.status = TxStatus.success) :
    t ∈ (verifyPayment store u ref cfg net).store
    ∧ ∀ (amount : Option JsNum) (email : Option String) (newRef : String) (now : Nat)
        (cfgI : Option String) (netI : AxiosOutcome (GatewayBody InitRespData)),
        newRef ∉ store.map Transaction.reference →
        t ∈ (initiatePayment store u amount email newRef now cfgI netI).store := by
  constructor
  · unfold verifyPayment
    split
    · simpa using ht
    · split
      · simpa using ht
      · rename_i tx hfind
        obtain ⟨htxmem, htxref⟩ := findOne_mem hfind
        split
        · simpa using ht
        · split
          · simpa using ht
          · rename_i hc hsc
            obtain ⟨tx', hstore, htx'ref⟩ :=
              verifyAfterGate_store_shape store tx ref (verifyTransaction cfg ref net)
            rw [hstore]
            apply mem_saveTx_of_ne ht
            rw [htx'ref]
            intro heq
            exact hsc (List.inj_on_of_nodup_map hnodup ht htxmem heq ▸ hs)
  · intro amount email newRef now cfgI netI hfresh
    have htref : t.reference ≠ newRef := by
      intro heq
      exact hfresh (heq ▸ List.mem_map_of_mem Transaction.reference ht)
    unfold initiatePayment
    split
    · simpa using ht
    · simpa using ht
    · rename_i q
      split
      · simpa using ht
      · split
        · simpa using ht
        · obtain ⟨tx', hstore, htx'ref⟩ := initiateAfterCreate_store_shape
            (store ++ [⟨u.id, q.floor, newRef, TxStatus.pending, none, now⟩])
            ⟨u.id, q.floor, newRef, TxStatus.pending, none, now⟩ q.floor
            (customerEmail u email) newRef
            (initializeTransaction cfgI q.floor (customerEmail u email) newRef netI)
          show t ∈ (initiateAfterCreate _ _ _ _ _ _).store
          rw [hstore]
          apply mem_saveTx_of_ne (List.mem_append_left _ ht)
          rw [htx'ref]
          exact htref

/-- Claim C1 amended witness. -/
theorem c1_witness :
    (⟨1, 5000, "PAY-A", TxStatus.success, none, 3⟩ : Transaction) ∈
      (verifyPayment [⟨1, 5000, "PAY-A", TxStatus.success, none, 3⟩]
        ⟨1, "A", "a@x.com", Role.user⟩ "PAY-A" (some "sk_test_k")
        (.ok ⟨true, some ⟨"failed", ""⟩, ""⟩)).store :=
  (c1_success_is_terminal [⟨1, 5000, "PAY-A", TxStatus.success, none, 3⟩]
    ⟨1, "A", "a@x.com", Role.user⟩ "PAY-A" (some "sk_test_k")
    (.ok ⟨true, some ⟨"failed", ""⟩, ""⟩) ⟨1, 5000, "PAY-A", TxStatus.success, none, 3⟩
    (by decide) (by decide) rfl).1

/-- Claim C5 counterexample: the supplied amount 3/2 is not a positive
integer, yet the call does not fail with 400 (here the gateway network
fails, so it answers 500) and a transaction record is created — with
amount 1, the floor of the supplied value, not the supplied value. -/
theorem c5_counterexample_noninteger_amount :
    (initiatePayment [] ⟨1, "A", "a@x.com", Role.user⟩
        (some (.val (Rat.mk' 3 2 (by decide) (by decide)))) none "PAY-X" 5
        (some "sk_test_k") .requestError).resp.status = 500
    ∧ ((initiatePayment [] ⟨1, "A", "a@x.com", Role.user⟩
        (some (.val (Rat.mk' 3 2 (by decide) (by decide)))) none "PAY-X" 5
        (some "sk_test_k") .requestError).store.map Transaction.amount) = [1] := by decide

/-- Claim C5 amended: if the supplied amount is absent, NaN, zero or below
1, initiate fails with 400 and neither creates a record nor calls the
gateway; if the supplied amount is any numeric value of at least 1 (not
necessarily an integer), a transaction with amount equal to the floor of
the supplied value and status pending is persisted strictly before the
gateway call, with the generated reference and the requesting user as
owner. -/
theorem c5_amount_validation
    (store : List Transaction) (u : User) (amount : Option JsNum)
    (email : Option String) (newRef : String) (now : Nat) (cfg : Option String)
    (net : AxiosOutcome (GatewayBody InitRespData)) :
    (validAmount amount = false →
      initiatePayment store u amount email newRef now cfg net =
        ⟨⟨400, false, "Please provide a valid amount (minimum 1 kobo)."⟩,
          none, none, none, none, store, []⟩)
    ∧ (∀ q : ℚ, amount = some (.val q) → 1 ≤ q →
        ∃ rest, (initiatePayment store u amount email newRef now cfg net).events =
          Event.dbCreate ⟨u.id, q.floor, newRef, TxStatus.pending, none, now⟩
            :: Event.gatewayInit q.floor (customerEmail u email) newRef :: rest) := by
  constructor
  · intro hv
    cases amount with
    | none => simp only [initiatePayment]
    | some jn =>
      cases jn with
      | nan => simp only [initiatePayment]
      | val q =>
        have hv' : (if q = 0 then false else if q < 1 then false else true) = false := hv
        by_cases h0 : q = 0
        · simp only [initiatePayment]
          simp [h0]
        · by_cases h1 : q < 1
          · simp only [initiatePayment]
            simp [h0, h1]
          · rw [if_neg h0, if_neg h1] at hv'
            exact absurd hv' (by simp)
  · intro q heq hq
    subst heq
    have h0 : ¬ q = 0 := by
      intro h
      rw [h] at hq
      norm_num at hq
    have h1 : ¬ q < 1 := not_lt.mpr hq
    rw [initiatePayment_val store u q email newRef now cfg net h0 h1]
    obtain ⟨tx', hev⟩ := initiateAfterCreate_events_shape
      (store ++ [⟨u.id, q.floor, newRef, TxStatus.pending, none, now⟩])
      ⟨u.id, q.floor, newRef, TxStatus.pending, none, now⟩ q.floor
      (customerEmail u email) newRef
      (initializeTransaction cfg q.floor (customerEmail u email) newRef net)
    exact ⟨[Event.dbSave tx'], hev⟩

/-- Claim C5 amended witness. -/
theorem c5_witness :
    validAmount none = false
    ∧ initiatePayment [] ⟨1, "A", "a@x.com", Role.user⟩ none none "PAY-X" 5 none
        .requestError =
      ⟨⟨400, false, "Please provide a valid amount (minimum 1 kobo)."⟩,
        none, none, none, none, [], []⟩ :=
  ⟨by decide, (c5_amount_validation [] ⟨1, "A", "a@x.com", Role.user⟩ none none "PAY-X" 5 none
    .requestError).1 (by decide)⟩

/-- Claim C6: when the gateway client of initiate fails by throwing
(gateway rejection, network error, or configuration error), the persisted
transaction transitions to status failed with the error payload stored on
it, and the caller receives a 500 response (carrying the thrown message,
or the fixed fallback when that message is empty). -/
theorem c6_initiate_gateway_failure
    (store : List Transaction) (u : User) (q : ℚ) (email : Option String)
    (newRef : String) (now : Nat) (cfg : Option String)
    (net : AxiosOutcome (GatewayBody InitRespData)) (msg : String)
    (hq : 1 ≤ q)
    (hfail : initializeTransaction cfg q.floor (customerEmail u email) newRef net =
      .error msg)
    (hfresh : newRef ∉ store.map Transaction.reference) :
    (initiatePayment store u (some (.val q)) email newRef now cfg net).resp =
      ⟨500, false, if msg = "" then "Failed to initialize payment with Paystack" else msg⟩
    ∧ (initiatePayment store u (some (.val q)) email newRef now cfg net).store =
      store ++ [⟨u.id, q.floor, newRef, TxStatus.failed, some (.errorData msg), now⟩] := by
  have h0 : ¬ q = 0 := by
    intro h
    rw [h] at hq
    norm_num at hq
  have h1 : ¬ q < 1 := not_lt.mpr hq
  rw [initiatePayment_val store u q email newRef now cfg net h0 h1, hfail]
  unfold initiateAfterCreate
  refine ⟨rfl, ?_⟩
  show saveTx (store ++ [⟨u.id, q.floor, newRef, TxStatus.pending, none, now⟩]) _ = _
  rw [saveTx_append_fresh]
  · rfl
  · exact hfresh

/-- Claim C6 witness: with the gateway credential unset, the client throws
the configuration error before the network, and initiate marks the
transaction failed with that error payload and answers 500. -/
theorem c6_witness :
    (initiatePayment [] ⟨1, "A", "a@x.com", Role.user⟩ (some (.val 7)) none "PAY-X" 5
        none .requestError).resp =
      ⟨500, false, "PAYSTACK_SECRET_KEY is not set in environment variables"⟩
    ∧ (initiatePayment [] ⟨1, "A", "a@x.com", Role.user⟩ (some (.val 7)) none "PAY-X" 5
        none .requestError).store =
      [⟨1, 7, "PAY-X", TxStatus.failed,
        some (.errorData "PAYSTACK_SECRET_KEY is not set in environment variables"), 5⟩] := by
  have h := c6_initiate_gateway_failure [] ⟨1, "A", "a@x.com", Role.user⟩ 7 none "PAY-X" 5
    none .requestError "PAYSTACK_SECRET_KEY is not set in environment variables"
    (by norm_num) rfl (by decide)
  exact ⟨h.1.trans (by decide), h.2.trans (by decide)⟩

/-- Claim C4: the gate first verifies the token — answering 401 when the
header is absent, the token malformed, or the token expired — then
re-loads the full user record by the decoded subject id, answering 401
when no such user exists; when a user is found, the role check compares
the re-loaded record's current role against the permitted set (403 when
absent), and the decoded token role r plays no part in the outcome. -/
theorem c4_gate_uses_reloaded_role
    (users : List User) (h : String) (tok : String)
    (jv : String → TokenVerifyOutcome) (roles : List Role)
    (hstart : jsStartsWith h "Bearer " = true) (hdrop : jsDrop h 7 = tok)
    (htok : tok ≠ "") :
    (∀ jv', authorizationGate users none jv' roles =
      .error ⟨401, false,
        "No token provided. Please include a Bearer token in the Authorization header."⟩)
    ∧ (jv tok = .malformed → authorizationGate users (some h) jv roles =
        .error ⟨401, false, "Invalid token."⟩)
    ∧ (jv tok = .expired → authorizationGate users (some h) jv roles =
        .error ⟨401, false, "Token has expired. Please login again."⟩)
    ∧ (∀ id r, jv tok = .valid id r → findById users id = none →
        authorizationGate users (some h) jv roles =
          .error ⟨401, false, "User not found. Token may be invalid."⟩)
    ∧ (∀ id r u, jv tok = .valid id r → findById users id = some u →
        authorizationGate users (some h) jv roles =
          (if roles.contains u.role then .ok u
           else .error ⟨403, false,
             "Access denied. This route requires one of the following roles: "
               ++ String.intercalate ", " (roles.map roleName) ++ "."⟩)) := by
  refine ⟨fun jv' => rfl, ?_, ?_, ?_, ?_⟩
  · intro hm
    simp [authorizationGate, authMiddleware, hstart, hdrop, htok, hm]
  · intro hm
    simp [authorizationGate, authMiddleware, hstart, hdrop, htok, hm]
  · intro id r hv hnone
    simp [authorizationGate, authMiddleware, hstart, hdrop, htok, hv, hnone]
  · intro id r u hv hfound
    simp [authorizationGate, authMiddleware, roleMiddleware, hstart, hdrop, htok, hv, hfound]

/-- Claim C4 witness: the token's embedded role claim is the stale user
role, but the re-loaded record carries admin, so the admin-only route
admits the caller. -/
theorem c4_witness :
    authorizationGate [⟨1, "A", "a@x.com", Role.admin⟩] (some "Bearer t")
      (fun _ => TokenVerifyOutcome.valid 1 Role.user) [Role.admin] =
      .ok ⟨1, "A", "a@x.com", Role.admin⟩ := by
  have hmain := (c4_gate_uses_reloaded_role [⟨1, "A", "a@x.com", Role.admin⟩] "Bearer t" "t"
    (fun _ => TokenVerifyOutcome.valid 1 Role.user) [Role.admin]
    (by decide) (by decide) (by decide)).2.2.2.2 1 Role.user
    ⟨1, "A", "a@x.com", Role.admin⟩ rfl (by decide)
  rw [hmain, if_pos]
  decide

/-- Claim C9: a login failing because no user has the email and a login
failing because the bcrypt comparison rejects the password for an existing
email produce literally identical results: the same 401 status and the
same generic message, with no token issued. -/
theorem c9_login_failure_indistinguishable
    (users : List StoredUser) (cmp : String → String → Bool)
    (e1 p1 e2 p2 : String) (u2 : StoredUser)
    (he1 : e1 ≠ "") (hp1 : p1 ≠ "") (he2 : e2 ≠ "") (hp2 : p2 ≠ "")
    (hnone : users.find? (fun u => u.email == jsToLower e1) = none)
    (hsome : users.find? (fun u => u.email == jsToLower e2) = some u2)
    (hwrong : cmp p2 u2.passwordHash = false) :
    login users cmp e1 p1 = login users cmp e2 p2
    ∧ login users cmp e1 p1 = ⟨⟨401, false, "Invalid email or password."⟩, false⟩ := by
  have hc1 : ¬(e1 = "" ∨ p1 = "") := by
    intro hc
    rcases hc with hc | hc
    · exact he1 hc
    · exact hp1 hc
  have hc2 : ¬(e2 = "" ∨ p2 = "") := by
    intro hc
    rcases hc with hc | hc
    · exact he2 hc
    · exact hp2 hc
  have k1 : login users cmp e1 p1 = ⟨⟨401, false, "Invalid email or password."⟩, false⟩ := by
    unfold login
    rw [if_neg hc1, hnone]
  have k2 : login users cmp e2 p2 = ⟨⟨401, false, "Invalid email or password."⟩, false⟩ := by
    unfold login
    rw [if_neg hc2, hsome]
    simp [hwrong]
  exact ⟨k1.trans k2.symm, k1⟩

/-- Claim C9 witness: an unknown email and a wrong password for the one
stored account yield the same response. -/
theorem c9_witness :
    login [⟨1, "A", "a@x.com", "HASH", Role.user⟩] (fun _ _ => false) "b@x.com" "pw1" =
      login [⟨1, "A", "a@x.com", "HASH", Role.user⟩] (fun _ _ => false) "a@x.com" "pw2"
    ∧ login [⟨1, "A", "a@x.com", "HASH", Role.user⟩] (fun _ _ => false) "b@x.com" "pw1" =
      ⟨⟨401, false, "Invalid email or password."⟩, false⟩ :=
  c9_login_failure_indistinguishable [⟨1, "A", "a@x.com", "HASH", Role.user⟩]
    (fun _ _ => false) "b@x.com" "pw1" "a@x.com" "pw2" ⟨1, "A", "a@x.com", "HASH", Role.user⟩
    (by decide) (by decide) (by decide) (by decide) (by decide) (by decide) rfl

lemma initializeTransaction_httpError_rest (cfg : Option String) (a : Int)
    (e ref : String) (code : Nat) (m r1 r2 : String) :
    initializeTransaction cfg a e ref (.httpError code ⟨m, r1⟩) =
      initializeTransaction cfg a e ref (.httpError code ⟨m, r2⟩) := by
  unfold initializeTransaction
  split
  · rfl
  · cases hcfg : getAuthHeader cfg <;> rfl

lemma verifyTransaction_httpError_rest (cfg : Option String) (ref : String)
    (code : Nat) (m r1 r2 : String) :
    verifyTransaction cfg ref (.httpError code ⟨m, r1⟩) =
      verifyTransaction cfg ref (.httpError code ⟨m, r2⟩) := by
  unfold verifyTransaction
  split
  · rfl
  · cases hcfg : getAuthHeader cfg <;> rfl

lemma initiatePayment_net_congr (store : List Transaction) (u : User)
    (amount : Option JsNum) (email : Option String) (newRef : String) (now : Nat)
    (cfg : Option String) (net1 net2 : AxiosOutcome (GatewayBody InitRespData))
    (hnet : ∀ a e r, initializeTransaction cfg a e r net1 =
      initializeTransaction cfg a e r net2) :
    initiatePayment store u amount email newRef now cfg net1 =
      initiatePayment store u amount email newRef now cfg net2 := by
  cases amount with
  | none => rfl
  | some jn =>
    cases jn with
    | nan => rfl
    | val q =>
      by_cases h0 : q = 0
      · simp only [initiatePayment]
        rw [if_pos h0, if_pos h0]
      · by_cases h1 : q < 1
        · simp only [initiatePayment]
          rw [if_neg h0, if_pos h1, if_neg h0, if_pos h1]
        · rw [initiatePayment_val store u q email newRef now cfg net1 h0 h1,
            initiatePayment_val store u q email newRef now cfg net2 h0 h1, hnet]

lemma verifyPayment_net_congr (store : List Transaction) (u : User) (ref : String)
    (cfg : Option String) (net1 net2 : AxiosOutcome (GatewayBody VerifyRespData))
    (hnet : verifyTransaction cfg ref net1 = verifyTransaction cfg ref net2) :
    verifyPayment store u ref cfg net1 = verifyPayment store u ref cfg net2 := by
  unfold verifyPayment
  split
  · rfl
  · cases hfind : findOne store ref with
    | none => rfl
    | some tx =>
      by_cases hc : tx.user ≠ u.id ∧ u.role ≠ Role.admin
      · simp [hc]
      · simp only [if_neg hc]
        by_cases hs : tx.status = TxStatus.success
        · simp [hs]
        · simp only [if_neg hs, hnet]

/-- Claim C8 counterexample: two initiate runs that differ only in the
message field of the upstream gateway error body produce different
client-visible messages, each equal to the corresponding upstream message
verbatim — the message forwarded to the client is the upstream error
message, not a fixed generic one. -/
theorem c8_counterexample_upstream_message_forwarded :
    (initiatePayment [] ⟨1, "A", "a@x.com", Role.user⟩ (some (.val 5000)) none "PAY-X" 5
        (some "sk_test_k")
        (.httpError 401 ⟨"Invalid key supplied upstream", "body-rest"⟩)).resp.message =
      "Invalid key supplied upstream"
    ∧ (initiatePayment [] ⟨1, "A", "a@x.com", Role.user⟩ (some (.val 5000)) none "PAY-X" 5
        (some "sk_test_k")
        (.httpError 401 ⟨"A different upstream message", "body-rest"⟩)).resp.message =
      "A different upstream message" := by decide

/-- Claim C8 amended: on a failed gateway round trip the client response
reflects at most the message field of the upstream error body — both
initiate and verify produce literally identical results for any two
upstream error bodies sharing a status code and message field, so no other
part of the raw upstream body ever reaches the client. -/
theorem c8_only_upstream_message_field_can_reach_client
    (store : List Transaction) (u : User) (amount : Option JsNum)
    (email : Option String) (newRef : String) (now : Nat) (cfg : Option String)
    (ref : String) (code : Nat) (m r1 r2 : String) :
    initiatePayment store u amount email newRef now cfg (.httpError code ⟨m, r1⟩) =
      initiatePayment store u amount email newRef now cfg (.httpError code ⟨m, r2⟩)
    ∧ verifyPayment store u ref cfg (.httpError code ⟨m, r1⟩) =
      verifyPayment store u ref cfg (.httpError code ⟨m, r2⟩) :=
  ⟨initiatePayment_net_congr store u amount email newRef now cfg _ _
      (fun a e r => initializeTransaction_httpError_rest cfg a e r code m r1 r2),
    verifyPayment_net_congr store u ref cfg _ _
      (verifyTransaction_httpError_rest cfg ref code m r1 r2)⟩

/-- An arbitrary rewrite of the stored paystackData field of a record,
leaving every other field unchanged. -/
def setPayload (f : Transaction → Option PaystackData) (t : Transaction) : Transaction :=
  { t with paystackData := f t }

lemma insertDesc_setPayload (f : Transaction → Option PaystackData)
    (t : Transaction) (l : List Transaction) :
    insertDescByCreatedAt (setPayload f t) (l.map (setPayload f)) =
      (insertDescByCreatedAt t l).map (setPayload f) := by
  induction l with
  | nil => rfl
  | cons a l ih =>
    by_cases hle : a.createdAt ≤ t.createdAt
    · simp [insertDescByCreatedAt, setPayload, hle]
    · simp [insertDescByCreatedAt, setPayload, hle]
      simpa [setPayload] using ih

lemma sortDesc_setPayload (f : Transaction → Option PaystackData) (l : List Transaction) :
    sortDescByCreatedAt (l.map (setPayload f)) =
      (sortDescByCreatedAt l).map (setPayload f) := by
  induction l with
  | nil => rfl
  | cons a l ih =>
    show insertDescByCreatedAt (setPayload f a) (sortDescByCreatedAt (l.map (setPayload f)))
      = (insertDescByCreatedAt a (sortDescByCreatedAt l)).map (setPayload f)
    rw [ih, insertDesc_setPayload]

lemma filter_user_setPayload (f : Transaction → Option PaystackData)
    (uid : Nat) (l : List Transaction) :
    (l.map (setPayload f)).filter (fun t => t.user == uid) =
      (l.filter (fun t => t.user == uid)).map (setPayload f) := by
  induction l with
  | nil => rfl
  | cons a l ih =>
    by_cases hu : (a.user == uid) = true
    · simp [List.filter_cons, setPayload, hu]
      simpa [setPayload] using ih
    · simp [List.filter_cons, setPayload, hu]
      simpa [setPayload] using ih

/-- Claim C10: the two listing operations exclude the stored paystackData
field from every returned record: their results are invariant under any
rewrite of the paystackData field of every stored transaction, and each
returned view carries only the remaining fields. -/
theorem c10_listings_exclude_paystackData
    (store : List Transaction) (u : User) (users : List User)
    (f : Transaction → Option PaystackData) :
    getMyTransactions (store.map (setPayload f)) u = getMyTransactions store u
    ∧ getAllTransactions users (store.map (setPayload f)) = getAllTransactions users store := by
  have hstrip : ∀ t, stripPaystackData (setPayload f t) = stripPaystackData t := fun t => rfl
  have hpop : ∀ t, populateOwner users (setPayload f t) = populateOwner users t := fun t => rfl
  constructor
  · unfold getMyTransactions
    rw [filter_user_setPayload, sortDesc_setPayload, List.map_map]
    rw [show stripPaystackData ∘ setPayload f = stripPaystackData from funext hstrip]
  · unfold getAllTransactions
    rw [sortDesc_setPayload, List.map_map]
    rw [show populateOwner users ∘ setPayload f = populateOwner users from funext hpop]

end SecureTx
